import Mathlib

/-!
Verification development for the freezr resource-guardian daemon.

The definitions below are shallow embeddings of the Rust sources:
  crates/freezr-daemon/src/monitor.rs   (per-class passes, stats projection)
  crates/freezr-daemon/src/config.rs    (Config::validate)
  crates/freezr-core/src/scanner.rs     (ProcessScanner)
  crates/freezr-core/src/systemd.rs     (SystemdService)
  crates/freezr-core/src/memory_pressure.rs
  crates/freezr-core/src/cgroups/types.rs, cgroups/utils.rs

Machine integers (u32/u64/usize) are modelled as Nat; f64 values are
modelled as exact rationals except where a claim is about the rounding
behaviour itself, in which case IEEE-754 double rounding is modelled
explicitly on rationals (see the FloatModel section).
External effects (process scans, D-Bus calls, the filesystem) are passed
in as explicit arguments or success oracles, and the sequence of external
calls a routine performs is returned as an explicit trace.
-/

set_option maxRecDepth 4000

namespace Freezr

/-- Process snapshot, from freezr-core/src/types.rs `ProcessInfo`.
`memory_mb` in the source is a field computed by `ProcessInfo::new` as
`memory_kb / 1024`; here it is a derived function. -/
structure ProcessInfo where
  pid : Nat
  name : String
  command : String
  cpu_percent : ℚ
  memory_kb : Nat
deriving Repr, DecidableEq

/-- `ProcessInfo::new` sets `memory_mb = memory_kb / 1024` (integer division). -/
def ProcessInfo.memory_mb (p : ProcessInfo) : Nat := p.memory_kb / 1024

/-! ## Two-tier class pass (Firefox / Brave / Telegram)

`ResourceMonitor::check_firefox_processes`, `check_brave_processes` and
`check_telegram_processes` (monitor.rs lines 650-1046) are three copies of
the same routine over the per-class fields; `checkTwoTier` embeds that
common routine, parameterised by the class's thresholds and counters. -/

/-- Two-tier threshold configuration of one class
(the `*_cpu_threshold_freeze/kill` and `*_max_violations_freeze/kill`
fields of `ResourceMonitor`). -/
structure TwoTierConfig where
  cpu_threshold_freeze : ℚ
  cpu_threshold_kill : ℚ
  max_violations_freeze : Nat
  max_violations_kill : Nat
deriving Repr, DecidableEq

/-- The per-class violation counters
(`*_violations_freeze` / `*_violations_kill`). -/
structure TwoTierCounters where
  violations_freeze : Nat
  violations_kill : Nat
deriving Repr, DecidableEq

/-- The remediation performed by one two-tier pass. -/
inductive TierAction where
  | none
  | killed (ps : List ProcessInfo)
  | froze (ps : List ProcessInfo)
deriving Repr, DecidableEq

/-- monitor.rs: `processes.iter().filter(|p| p.cpu_percent > threshold_kill)`. -/
def criticalProcesses (cfg : TwoTierConfig) (ps : List ProcessInfo) : List ProcessInfo :=
  ps.filter (fun p => decide (cfg.cpu_threshold_kill < p.cpu_percent))

/-- monitor.rs: `filter(|p| p.cpu_percent > threshold_freeze && p.cpu_percent <= threshold_kill)`. -/
def highCpuProcesses (cfg : TwoTierConfig) (ps : List ProcessInfo) : List ProcessInfo :=
  ps.filter (fun p =>
    decide (cfg.cpu_threshold_freeze < p.cpu_percent) &&
    decide (p.cpu_percent ≤ cfg.cpu_threshold_kill))

/-- One tick of the two-tier pass (monitor.rs `check_firefox_processes` and
its Brave/Telegram copies): empty snapshot resets both counters; a
non-empty critical set increments the kill counter and, when it reaches
its maximum, kills the critical set and resets both counters; otherwise a
non-empty high-CPU set zeroes the kill counter, increments the freeze
counter and, when it reaches its maximum, freezes the high-CPU set and
resets the freeze counter; otherwise both counters reset. -/
def checkTwoTier (cfg : TwoTierConfig) (procs : List ProcessInfo) (st : TwoTierCounters) :
    TwoTierCounters × TierAction :=
  if procs.isEmpty then (⟨0, 0⟩, .none)
  else
    let critical := criticalProcesses cfg procs
    let high := highCpuProcesses cfg procs
    if !critical.isEmpty then
      if cfg.max_violations_kill ≤ st.violations_kill + 1 then (⟨0, 0⟩, .killed critical)
      else (⟨st.violations_freeze, st.violations_kill + 1⟩, .none)
    else if !high.isEmpty then
      if cfg.max_violations_freeze ≤ st.violations_freeze + 1 then (⟨0, 0⟩, .froze high)
      else (⟨st.violations_freeze + 1, 0⟩, .none)
    else (⟨0, 0⟩, .none)

/-- Default Firefox two-tier configuration
(monitor.rs `ResourceMonitor::new`: freeze 80%, kill 95%, 2 and 3 violations). -/
def firefoxDefaultConfig : TwoTierConfig := ⟨80, 95, 2, 3⟩

/-- A Firefox process at 85% CPU (freeze tier under the default config). -/
def ffProc85 : ProcessInfo := ⟨1234, "firefox", "/usr/lib/firefox/firefox", 85, 500000⟩

/-- A Firefox process at 97% CPU (kill tier under the default config). -/
def ffProc97 : ProcessInfo := ⟨1234, "firefox", "/usr/lib/firefox/firefox", 97, 500000⟩

/-- Tick 1 of the C1 run: one Firefox process at 85% from fresh counters. -/
def ffTick1 : TwoTierCounters × TierAction :=
  checkTwoTier firefoxDefaultConfig [ffProc85] ⟨0, 0⟩

/-- Tick 2 of the C1 run: the same process at 97%, continuing from tick 1. -/
def ffTick2 : TwoTierCounters × TierAction :=
  checkTwoTier firefoxDefaultConfig [ffProc97] ffTick1.1

/-- Claim C1 is false as stated: starting from fresh counters under the
default Firefox configuration, a tick at 85% CPU leaves counters (1, 0),
and the next tick at 97% CPU takes the kill-tier branch with
`kill_hits = 1 < max_kill = 3`, which leaves the freeze counter untouched:
the pass ends with `freeze_hits = 1` and `kill_hits = 1`, both non-zero,
and `freeze_hits` was not reset even though a process was above the kill
threshold. -/
theorem c1_two_tier_exclusivity_counterexample :
    ffTick1.1 = ⟨1, 0⟩ ∧
    (criticalProcesses firefoxDefaultConfig [ffProc97]).isEmpty = false ∧
    ffTick2.1.violations_kill < firefoxDefaultConfig.max_violations_kill ∧
    ffTick2.1.violations_freeze ≠ 0 ∧ ffTick2.1.violations_kill ≠ 0 := by
  decide

/-- Claim C1, amended: at the end of a tick in which no matched process is
above the kill threshold, at most one of the two counters is non-zero; on
a tick in which some process is above the kill threshold, both counters
are reset exactly when the incremented kill counter reaches
`max_violations_kill`, and otherwise the freeze counter is left unchanged
(so both counters can be non-zero simultaneously). -/
theorem c1_two_tier_exclusivity_amended
    (cfg : TwoTierConfig) (procs : List ProcessInfo) (st : TwoTierCounters) :
    ((criticalProcesses cfg procs).isEmpty = true →
      ((checkTwoTier cfg procs st).1.violations_freeze = 0 ∨
       (checkTwoTier cfg procs st).1.violations_kill = 0)) ∧
    ((criticalProcesses cfg procs).isEmpty = false →
      (checkTwoTier cfg procs st).1 =
        if cfg.max_violations_kill ≤ st.violations_kill + 1 then ⟨0, 0⟩
        else ⟨st.violations_freeze, st.violations_kill + 1⟩) := by
  constructor
  · intro hcrit
    unfold checkTwoTier
    by_cases hp : procs.isEmpty = true
    · rw [if_pos hp]; simp
    · rw [if_neg hp]
      rw [if_neg (by simp [hcrit])]
      by_cases hh : (highCpuProcesses cfg procs).isEmpty = true
      · rw [if_neg (by simp [hh])]; simp
      · rw [if_pos (by simp at hh; simp [hh])]
        split_ifs <;> simp
  · intro hcrit
    have hp : ¬ procs.isEmpty = true := by
      cases hstruct : procs with
      | nil => rw [hstruct] at hcrit; simp [criticalProcesses] at hcrit
      | cons a l => simp [hstruct]
    unfold checkTwoTier
    rw [if_neg hp]
    rw [if_pos (by simp [hcrit])]
    split_ifs <;> rfl

/-- Witness for the amended C1: instantiating the kill-tier branch at the
concrete C1 run shows the freeze counter surviving a sub-maximum kill tick. -/
theorem c1_two_tier_exclusivity_amended_witness :
    (checkTwoTier firefoxDefaultConfig [ffProc97] ⟨1, 0⟩).1 = ⟨1, 1⟩ := by
  have h :=
    (c1_two_tier_exclusivity_amended firefoxDefaultConfig [ffProc97] ⟨1, 0⟩).2 (by decide)
  simpa using h

/-- Claim C7: membership in the two filtered tiers is exactly the strict
partition from the spec, and on the boundaries: a process whose CPU equals
the freeze threshold is in neither tier, and one whose CPU equals the kill
threshold is in the freeze tier (given the two-tier invariant
`freeze < kill`) and never in the kill tier. -/
theorem c7_two_tier_boundary
    (cfg : TwoTierConfig) (procs : List ProcessInfo) (p : ProcessInfo) :
    (p ∈ criticalProcesses cfg procs ↔
      p ∈ procs ∧ cfg.cpu_threshold_kill < p.cpu_percent) ∧
    (p ∈ highCpuProcesses cfg procs ↔
      p ∈ procs ∧ cfg.cpu_threshold_freeze < p.cpu_percent ∧
        p.cpu_percent ≤ cfg.cpu_threshold_kill) ∧
    (cfg.cpu_threshold_freeze < cfg.cpu_threshold_kill →
      p.cpu_percent = cfg.cpu_threshold_freeze →
      p ∉ criticalProcesses cfg procs ∧ p ∉ highCpuProcesses cfg procs) ∧
    (cfg.cpu_threshold_freeze < cfg.cpu_threshold_kill →
      p.cpu_percent = cfg.cpu_threshold_kill →
      p ∉ criticalProcesses cfg procs ∧ (p ∈ procs → p ∈ highCpuProcesses cfg procs)) := by
  refine ⟨?_, ?_, ?_, ?_⟩
  · simp [criticalProcesses, List.mem_filter]
  · simp [highCpuProcesses, List.mem_filter, and_assoc]
  · intro hlt heq
    constructor
    · simp only [criticalProcesses, List.mem_filter, heq, decide_eq_true_eq]
      exact fun h => absurd h.2 (not_lt.mpr (le_of_lt hlt))
    · simp only [highCpuProcesses, List.mem_filter, Bool.and_eq_true, decide_eq_true_eq, heq]
      exact fun h => absurd h.2.1 (lt_irrefl _)
  · intro hlt heq
    constructor
    · simp [criticalProcesses, List.mem_filter, heq]
    · intro hmem
      simp [highCpuProcesses, List.mem_filter, heq, hmem, hlt, le_refl]

/-- Witness for C7: under the default Firefox thresholds, a process at
exactly 95% CPU is in the freeze tier and not in the kill tier. -/
theorem c7_two_tier_boundary_witness :
    ⟨1234, "firefox", "/usr/lib/firefox/firefox", (95 : ℚ), 500000⟩ ∉
      criticalProcesses firefoxDefaultConfig
        [⟨1234, "firefox", "/usr/lib/firefox/firefox", (95 : ℚ), 500000⟩] ∧
    ⟨1234, "firefox", "/usr/lib/firefox/firefox", (95 : ℚ), 500000⟩ ∈
      highCpuProcesses firefoxDefaultConfig
        [⟨1234, "firefox", "/usr/lib/firefox/firefox", (95 : ℚ), 500000⟩] := by
  have h :=
    (c7_two_tier_boundary firefoxDefaultConfig
      [⟨1234, "firefox", "/usr/lib/firefox/firefox", (95 : ℚ), 500000⟩]
      ⟨1234, "firefox", "/usr/lib/firefox/firefox", (95 : ℚ), 500000⟩).2.2.2
      (by norm_num [firefoxDefaultConfig]) rfl
  exact ⟨h.1, h.2 (by simp)⟩

/-! ## Configuration schema and validation (freezr-daemon/src/config.rs) -/

/-- config.rs `KeslConfig`. -/
structure KeslConfig where
  cpu_threshold : ℚ
  memory_threshold_mb : Nat
  max_violations : Nat
  service_name : String
  enabled : Bool
deriving Repr, DecidableEq

/-- config.rs `NodeConfig`. -/
structure NodeConfig where
  cpu_threshold : ℚ
  enabled : Bool
  auto_kill : Bool
  confirm_kill : Bool
deriving Repr, DecidableEq

/-- config.rs `SnapConfig`. -/
structure SnapConfig where
  cpu_threshold : ℚ
  enabled : Bool
  action : String
  nice_level : ℤ
  freeze_duration_secs : Nat
  max_violations : Nat
deriving Repr, DecidableEq

/-- config.rs `FirefoxConfig`; `BraveConfig` and `TelegramConfig` have the
same shape and are separate structures in the source, modelled by the
shared shape `BrowserClassConfig`. -/
structure BrowserClassConfig where
  cpu_threshold_freeze : ℚ
  cpu_threshold_kill : ℚ
  enabled : Bool
  freeze_duration_secs : Nat
  max_violations_freeze : Nat
  max_violations_kill : Nat
deriving Repr, DecidableEq

/-- config.rs `LogConfig`. -/
structure LogConfig where
  log_dir : String
  kesl_log : String
  node_log : String
  actions_log : String
  max_file_size_mb : Nat
  rotate_count : Nat
deriving Repr, DecidableEq

/-- config.rs `MonitoringConfig`. -/
structure MonitoringConfig where
  check_interval_secs : Nat
  min_restart_interval_secs : Nat
deriving Repr, DecidableEq

/-- config.rs `Config`. -/
structure Config where
  kesl : KeslConfig
  node : NodeConfig
  snap : SnapConfig
  firefox : BrowserClassConfig
  brave : BrowserClassConfig
  telegram : BrowserClassConfig
  logging : LogConfig
  monitoring : MonitoringConfig
deriving Repr, DecidableEq

/-- `Config::validate` (config.rs lines 343-473), check for check in source
order.  Note the source validates the Firefox and Brave sections but has no
checks at all for the Telegram section. -/
def Config.validate (c : Config) : Except String Unit :=
  if c.kesl.cpu_threshold < 0 ∨ 100 < c.kesl.cpu_threshold then
    .error "KESL CPU threshold must be 0-100"
  else if c.kesl.memory_threshold_mb = 0 then
    .error "KESL memory threshold must be positive"
  else if c.kesl.max_violations = 0 then
    .error "KESL max violations must be positive"
  else if c.node.cpu_threshold < 0 ∨ 100 < c.node.cpu_threshold then
    .error "Node CPU threshold must be 0-100"
  else if c.snap.cpu_threshold < 0 ∨ 1000 < c.snap.cpu_threshold then
    .error "Snap CPU threshold must be 0-1000"
  else if ¬ (c.snap.action = "freeze" ∨ c.snap.action = "nice" ∨ c.snap.action = "kill") then
    .error "Snap action must be freeze, nice, or kill"
  else if c.snap.nice_level < 0 ∨ 19 < c.snap.nice_level then
    .error "Snap nice level must be 0-19"
  else if c.snap.max_violations = 0 then
    .error "Snap max violations must be positive"
  else if c.firefox.cpu_threshold_freeze < 0 ∨ 100 < c.firefox.cpu_threshold_freeze then
    .error "Firefox freeze CPU threshold must be 0-100"
  else if c.firefox.cpu_threshold_kill < 0 ∨ 100 < c.firefox.cpu_threshold_kill then
    .error "Firefox kill CPU threshold must be 0-100"
  else if c.firefox.cpu_threshold_kill ≤ c.firefox.cpu_threshold_freeze then
    .error "Firefox kill threshold must be above freeze threshold"
  else if c.firefox.max_violations_freeze = 0 then
    .error "Firefox max freeze violations must be positive"
  else if c.firefox.max_violations_kill = 0 then
    .error "Firefox max kill violations must be positive"
  else if c.brave.cpu_threshold_freeze < 0 ∨ 100 < c.brave.cpu_threshold_freeze then
    .error "Brave freeze CPU threshold must be 0-100"
  else if c.brave.cpu_threshold_kill < 0 ∨ 100 < c.brave.cpu_threshold_kill then
    .error "Brave kill CPU threshold must be 0-100"
  else if c.brave.cpu_threshold_kill ≤ c.brave.cpu_threshold_freeze then
    .error "Brave kill threshold must be above freeze threshold"
  else if c.brave.max_violations_freeze = 0 then
    .error "Brave max freeze violations must be positive"
  else if c.brave.max_violations_kill = 0 then
    .error "Brave max kill violations must be positive"
  else if c.monitoring.check_interval_secs = 0 then
    .error "Check interval must be positive"
  else if c.monitoring.min_restart_interval_secs = 0 then
    .error "Min restart interval must be positive"
  else if c.logging.max_file_size_mb = 0 then
    .error "Max log file size must be positive"
  else if c.logging.rotate_count = 0 then
    .error "Log rotate count must be positive"
  else
    .ok ()

/-- The `Default` impl of `Config` (config.rs lines 199-309). -/
def defaultConfig : Config :=
  { kesl := ⟨30, 600, 3, "kesl", true⟩
    node := ⟨80, true, true, false⟩
    snap := ⟨300, true, "nice", 15, 5, 3⟩
    firefox := ⟨80, 95, true, 5, 2, 3⟩
    brave := ⟨80, 95, true, 5, 2, 3⟩
    telegram := ⟨80, 95, true, 5, 2, 3⟩
    logging := ⟨"./logs", "kesl-monitor.log", "node-monitor.log", "actions.log", 10, 5⟩
    monitoring := ⟨3, 100⟩ }

/-- The default configuration with the Telegram kill threshold lowered to
50%, strictly below its freeze threshold of 80%. -/
def badTelegramConfig : Config :=
  { defaultConfig with telegram := ⟨80, 50, true, 5, 2, 3⟩ }

/-- Claim C2 is false as stated: a configuration whose Telegram section has
`cpu_threshold_kill = 50 ≤ 80 = cpu_threshold_freeze` passes
`Config::validate`, because the source validates the Firefox and Brave
sections but never the Telegram section. -/
theorem c2_validate_counterexample :
    badTelegramConfig.telegram.cpu_threshold_kill ≤
      badTelegramConfig.telegram.cpu_threshold_freeze ∧
    badTelegramConfig.validate = .ok () := by
  constructor
  · norm_num [badTelegramConfig, defaultConfig]
  · rfl

set_option maxHeartbeats 2000000 in
/-- Claim C2, amended: validation rejects `kill_threshold ≤ freeze_threshold`
for the Firefox and Brave sections (any configuration `validate` accepts has
`kill > freeze` for both), but performs no such check for Telegram. -/
theorem c2_validate_two_tier_thresholds
    (c : Config) (h : c.validate = .ok ()) :
    c.firefox.cpu_threshold_freeze < c.firefox.cpu_threshold_kill ∧
    c.brave.cpu_threshold_freeze < c.brave.cpu_threshold_kill := by
  unfold Config.validate at h
  by_cases h1 : c.kesl.cpu_threshold < 0 ∨ 100 < c.kesl.cpu_threshold
  · rw [if_pos h1] at h; exact Except.noConfusion h
  rw [if_neg h1] at h
  by_cases h2 : c.kesl.memory_threshold_mb = 0
  · rw [if_pos h2] at h; exact Except.noConfusion h
  rw [if_neg h2] at h
  by_cases h3 : c.kesl.max_violations = 0
  · rw [if_pos h3] at h; exact Except.noConfusion h
  rw [if_neg h3] at h
  by_cases h4 : c.node.cpu_threshold < 0 ∨ 100 < c.node.cpu_threshold
  · rw [if_pos h4] at h; exact Except.noConfusion h
  rw [if_neg h4] at h
  by_cases h5 : c.snap.cpu_threshold < 0 ∨ 1000 < c.snap.cpu_threshold
  · rw [if_pos h5] at h; exact Except.noConfusion h
  rw [if_neg h5] at h
  by_cases h6 : ¬ (c.snap.action = "freeze" ∨ c.snap.action = "nice" ∨ c.snap.action = "kill")
  · rw [if_pos h6] at h; exact Except.noConfusion h
  rw [if_neg h6] at h
  by_cases h7 : c.snap.nice_level < 0 ∨ 19 < c.snap.nice_level
  · rw [if_pos h7] at h; exact Except.noConfusion h
  rw [if_neg h7] at h
  by_cases h8 : c.snap.max_violations = 0
  · rw [if_pos h8] at h; exact Except.noConfusion h
  rw [if_neg h8] at h
  by_cases h9 : c.firefox.cpu_threshold_freeze < 0 ∨ 100 < c.firefox.cpu_threshold_freeze
  · rw [if_pos h9] at h; exact Except.noConfusion h
  rw [if_neg h9] at h
  by_cases h10 : c.firefox.cpu_threshold_kill < 0 ∨ 100 < c.firefox.cpu_threshold_kill
  · rw [if_pos h10] at h; exact Except.noConfusion h
  rw [if_neg h10] at h
  by_cases h11 : c.firefox.cpu_threshold_kill ≤ c.firefox.cpu_threshold_freeze
  · rw [if_pos h11] at h; exact Except.noConfusion h
  rw [if_neg h11] at h
  by_cases h12 : c.firefox.max_violations_freeze = 0
  · rw [if_pos h12] at h; exact Except.noConfusion h
  rw [if_neg h12] at h
  by_cases h13 : c.firefox.max_violations_kill = 0
  · rw [if_pos h13] at h; exact Except.noConfusion h
  rw [if_neg h13] at h
  by_cases h14 : c.brave.cpu_threshold_freeze < 0 ∨ 100 < c.brave.cpu_threshold_freeze
  · rw [if_pos h14] at h; exact Except.noConfusion h
  rw [if_neg h14] at h
  by_cases h15 : c.brave.cpu_threshold_kill < 0 ∨ 100 < c.brave.cpu_threshold_kill
  · rw [if_pos h15] at h; exact Except.noConfusion h
  rw [if_neg h15] at h
  by_cases h16 : c.brave.cpu_threshold_kill ≤ c.brave.cpu_threshold_freeze
  · rw [if_pos h16] at h; exact Except.noConfusion h
  exact ⟨not_le.mp h11, not_le.mp h16⟩

/-- Witness for the amended C2: the default configuration validates, and
both browser classes satisfy the strict threshold ordering. -/
theorem c2_validate_two_tier_thresholds_witness :
    defaultConfig.firefox.cpu_threshold_freeze <
      defaultConfig.firefox.cpu_threshold_kill ∧
    defaultConfig.brave.cpu_threshold_freeze <
      defaultConfig.brave.cpu_threshold_kill :=
  c2_validate_two_tier_thresholds defaultConfig rfl

/-! ## Process scanner CPU averaging (freezr-core/src/scanner.rs)

`ProcessScanner::measure_cpu_average(pid, samples)` (scanner.rs lines
344-366) takes `samples` readings from `measure_cpu_top` one second apart.
The per-call sampler is modelled as a function from the call index to the
sampled value.  The loop accumulates `sum` and `count` but only over the
strictly positive readings, and returns `sum / count` (or `0.0` when no
reading was positive). -/

/-- scanner.rs `ProcessScanner::measure_cpu_average`. -/
def measure_cpu_average (sampler : ℕ → ℚ) (samples : ℕ) : ℚ :=
  let sc := (List.range samples).foldl
    (fun sc i => if 0 < sampler i then (sc.1 + sampler i, sc.2 + 1) else sc)
    ((0 : ℚ), (0 : ℕ))
  if 0 < sc.2 then sc.1 / (sc.2 : ℚ) else 0

/-- scanner.rs `ProcessScanner::scan_kesl` measures CPU via
`measure_cpu_average(pid, 3)`; this is the reported `cpu_percent`. -/
def scan_kesl_cpu (sampler : ℕ → ℚ) : ℚ := measure_cpu_average sampler 3

/-- The sample sequence 10%, 0%, 20% for the C3 counterexample. -/
def keslSamples (i : ℕ) : ℚ := if i = 0 then 10 else if i = 1 then 0 else 20

/-- Claim C3 is false as stated: with the three samples (10, 0, 20) the
KESL scan reports (10 + 20) / 2 = 15, not (10 + 0 + 20) / 3 = 10, because
the averaging loop drops non-positive readings from both the sum and the
count. -/
theorem c3_kesl_cpu_average_counterexample :
    scan_kesl_cpu keslSamples = 15 ∧
    (keslSamples 0 + keslSamples 1 + keslSamples 2) / 3 = 10 ∧
    scan_kesl_cpu keslSamples ≠
      (keslSamples 0 + keslSamples 1 + keslSamples 2) / 3 := by
  have hrange : List.range 3 = [0, 1, 2] := by decide
  have h1 : scan_kesl_cpu keslSamples = 15 := by
    unfold scan_kesl_cpu measure_cpu_average
    rw [hrange]
    norm_num [keslSamples, List.foldl]
  have h2 : (keslSamples 0 + keslSamples 1 + keslSamples 2) / 3 = 10 := by
    norm_num [keslSamples]
  refine ⟨h1, h2, ?_⟩
  rw [h1, h2]
  norm_num

/-- Claim C3, amended: the KESL scan's CPU reading is the arithmetic mean
of the strictly positive values among the three samples (0 when none is
positive); in particular it equals (s1 + s2 + s3) / 3 whenever all three
samples are strictly positive. -/
theorem c3_kesl_cpu_average_amended (sampler : ℕ → ℚ) :
    (scan_kesl_cpu sampler =
      if ([sampler 0, sampler 1, sampler 2].filter (fun c => decide (0 < c))).length = 0
      then 0
      else ([sampler 0, sampler 1, sampler 2].filter (fun c => decide (0 < c))).sum /
        (([sampler 0, sampler 1, sampler 2].filter (fun c => decide (0 < c))).length : ℚ)) ∧
    (0 < sampler 0 → 0 < sampler 1 → 0 < sampler 2 →
      scan_kesl_cpu sampler = (sampler 0 + sampler 1 + sampler 2) / 3) := by
  have hrange : List.range 3 = [0, 1, 2] := by decide
  constructor
  · unfold scan_kesl_cpu measure_cpu_average
    rw [hrange]
    by_cases h0 : 0 < sampler 0 <;> by_cases h1 : 0 < sampler 1 <;>
      by_cases h2 : 0 < sampler 2 <;>
      simp [h0, h1, h2, List.foldl, List.filter] <;> try ring
  · intro h0 h1 h2
    unfold scan_kesl_cpu measure_cpu_average
    rw [hrange]
    simp [h0, h1, h2, List.foldl]
    try norm_num

/-- Witness for the amended C3: three strictly positive samples 30, 60, 90
average to 60 through the scan. -/
theorem c3_kesl_cpu_average_amended_witness :
    scan_kesl_cpu (fun i => if i = 0 then 30 else if i = 1 then 60 else 90) = 60 := by
  have h := (c3_kesl_cpu_average_amended
    (fun i => if i = 0 then 30 else if i = 1 then 60 else 90)).2
    (by norm_num) (by norm_num) (by norm_num)
  rw [h]; norm_num

/-! ## Memory pressure (freezr-core/src/memory_pressure.rs) and the
stats projection's pressure status (monitor.rs `export_stats`) -/

/-- memory_pressure.rs `MemoryPressure`. -/
structure MemoryPressure where
  some_avg10 : ℚ
  some_avg60 : ℚ
  some_avg300 : ℚ
  some_total : ℕ
  full_avg10 : ℚ
  full_avg60 : ℚ
  full_avg300 : ℚ
  full_total : ℕ
deriving Repr, DecidableEq

/-- memory_pressure.rs `MemoryPressure::is_warning`. -/
def MemoryPressure.is_warning (p : MemoryPressure) (some_threshold full_threshold : ℚ) : Bool :=
  decide (some_threshold ≤ p.some_avg10) || decide (full_threshold ≤ p.full_avg10)

/-- memory_pressure.rs `MemoryPressure::is_critical` (same comparison as
`is_warning`, against the critical thresholds). -/
def MemoryPressure.is_critical (p : MemoryPressure) (some_threshold full_threshold : ℚ) : Bool :=
  decide (some_threshold ≤ p.some_avg10) || decide (full_threshold ≤ p.full_avg10)

/-- memory_pressure.rs `MemoryPressure::status` (lines 131-143). -/
def MemoryPressure.status (p : MemoryPressure) : String :=
  if 0 < p.full_avg10 then "CRITICAL"
  else if 10 < p.some_avg10 then "HIGH"
  else if 5 < p.some_avg10 then "MEDIUM"
  else if 0 < p.some_avg10 then "LOW"
  else "NONE"

/-- The memory-pressure status string computed by
`ResourceMonitor::export_stats` (monitor.rs lines 1111-1127): when
monitoring is enabled and the PSI read succeeds, compare `full_avg10` with
the critical full threshold and `some_avg10` with the critical some
threshold; a failed read yields UNKNOWN and a disabled reactor DISABLED. -/
def exportStatsPressureStatus (enabled : Bool) (reading : Option MemoryPressure)
    (someCrit fullCrit : ℚ) : String :=
  if enabled then
    match reading with
    | some p =>
      if fullCrit ≤ p.full_avg10 then "CRITICAL"
      else if someCrit ≤ p.some_avg10 then "WARNING"
      else "OK"
    | none => "UNKNOWN"
  else "DISABLED"

/-- A PSI reading with both avg10 values zero (an idle system). -/
def idlePressure : MemoryPressure := ⟨0, 0, 0, 634678, 0, 0, 0, 583219⟩

/-- Claim C4 is false as stated: with pressure monitoring enabled and an
idle PSI reading under the default critical thresholds (some 30, full 15),
the snapshot produced by `export_stats` carries the status OK, which is
not one of NONE, LOW, MEDIUM, HIGH, CRITICAL. -/
theorem c4_export_stats_status_counterexample :
    exportStatsPressureStatus true (some idlePressure) 30 15 = "OK" ∧
    "OK" ∉ ["NONE", "LOW", "MEDIUM", "HIGH", "CRITICAL"] := by
  refine ⟨by decide, by decide⟩

/-- Claim C4, amended: the status field of the stats projection's
memory-pressure block takes a value in CRITICAL, WARNING, OK, UNKNOWN,
DISABLED; the value set NONE, LOW, MEDIUM, HIGH, CRITICAL named by the
claim is the range of `MemoryPressure::status`, which the dashboard helper
`get_memory_pressure_status` uses but `export_stats` does not. -/
theorem c4_export_stats_status_amended :
    (∀ (enabled : Bool) (reading : Option MemoryPressure) (someCrit fullCrit : ℚ),
      exportStatsPressureStatus enabled reading someCrit fullCrit ∈
        ["CRITICAL", "WARNING", "OK", "UNKNOWN", "DISABLED"]) ∧
    (∀ p : MemoryPressure,
      p.status ∈ ["NONE", "LOW", "MEDIUM", "HIGH", "CRITICAL"]) := by
  constructor
  · intro enabled reading someCrit fullCrit
    unfold exportStatsPressureStatus
    cases enabled <;> cases reading <;> dsimp only <;> split_ifs <;> simp
  · intro p
    unfold MemoryPressure.status
    split_ifs <;> simp

/-! ## Memory-pressure Kill action: the prioritised victim ladder
(monitor.rs `kill_non_critical_processes`, lines 1483-1590) -/

/-- Result of the OOM-prevention kill pass: the pids on which a kill was
attempted, in order, plus the success count and freed RSS tallies. -/
structure OomKillReport where
  attempts : List Nat
  killed_count : Nat
  memory_freed_kb : Nat
deriving Repr, DecidableEq

/-- One unconditional ladder tier (the Brave, Telegram and Firefox loops):
every process in the snapshot is killed in snapshot order; a successful
kill bumps the count and the freed-memory tally. -/
def killLadderTier (killOk : Nat → Bool) (ps : List ProcessInfo)
    (acc : OomKillReport) : OomKillReport :=
  ps.foldl (fun a p =>
    { attempts := a.attempts ++ [p.pid]
      killed_count := if killOk p.pid then a.killed_count + 1 else a.killed_count
      memory_freed_kb :=
        if killOk p.pid then a.memory_freed_kb + p.memory_kb else a.memory_freed_kb }) acc

/-- The Nvim ladder tier: a process is killed only when
`memory_kb / 1024 > 1024` (its integer RSS in MB exceeds 1024); otherwise
it is skipped. -/
def killLadderNvimTier (killOk : Nat → Bool) (ps : List ProcessInfo)
    (acc : OomKillReport) : OomKillReport :=
  ps.foldl (fun a p =>
    if 1024 < p.memory_mb then
      { attempts := a.attempts ++ [p.pid]
        killed_count := if killOk p.pid then a.killed_count + 1 else a.killed_count
        memory_freed_kb :=
          if killOk p.pid then a.memory_freed_kb + p.memory_kb else a.memory_freed_kb }
    else a) acc

/-- monitor.rs `ResourceMonitor::kill_non_critical_processes`: the four
priority tiers run in the fixed order Brave, Telegram, Nvim (large only),
Firefox, each over its scanner snapshot. -/
def kill_non_critical_processes (killOk : Nat → Bool)
    (brave telegram nvim firefox : List ProcessInfo) : OomKillReport :=
  killLadderTier killOk firefox
    (killLadderNvimTier killOk nvim
      (killLadderTier killOk telegram
        (killLadderTier killOk brave ⟨[], 0, 0⟩)))

theorem killLadderTier_attempts (killOk : Nat → Bool) (ps : List ProcessInfo)
    (acc : OomKillReport) :
    (killLadderTier killOk ps acc).attempts = acc.attempts ++ ps.map (·.pid) := by
  induction ps generalizing acc with
  | nil => simp [killLadderTier]
  | cons p ps ih =>
    simp only [killLadderTier, List.foldl] at *
    rw [ih]
    simp

theorem killLadderNvimTier_attempts (killOk : Nat → Bool) (ps : List ProcessInfo)
    (acc : OomKillReport) :
    (killLadderNvimTier killOk ps acc).attempts =
      acc.attempts ++ (ps.filter (fun p => decide (1024 < p.memory_mb))).map (·.pid) := by
  induction ps generalizing acc with
  | nil => simp [killLadderNvimTier]
  | cons p ps ih =>
    simp only [killLadderNvimTier, List.foldl] at *
    by_cases hp : 1024 < p.memory_mb
    · rw [if_pos hp, ih]
      simp [hp]
    · rw [if_neg hp, ih]
      simp [hp]

/-- Claim C5: the memory-pressure Kill action attempts kills in exactly the
ladder order Brave, Telegram, Nvim restricted to RSS above 1 GiB, Firefox,
finishing each tier before the next; every Nvim process in the kill tier has
RSS strictly above 1 GiB (1048576 kB), and an Nvim process with RSS at or
below 1 GiB is never in the kill tier. -/
theorem c5_kill_ladder (killOk : Nat → Bool)
    (brave telegram nvim firefox : List ProcessInfo) :
    ((kill_non_critical_processes killOk brave telegram nvim firefox).attempts =
      brave.map (·.pid) ++ telegram.map (·.pid) ++
        (nvim.filter (fun p => decide (1024 < p.memory_mb))).map (·.pid) ++
        firefox.map (·.pid)) ∧
    (∀ p ∈ nvim.filter (fun p => decide (1024 < p.memory_mb)),
      1024 * 1024 < p.memory_kb) ∧
    (∀ p ∈ nvim, p.memory_kb ≤ 1024 * 1024 →
      p ∉ nvim.filter (fun p => decide (1024 < p.memory_mb))) := by
  refine ⟨?_, ?_, ?_⟩
  · unfold kill_non_critical_processes
    rw [killLadderTier_attempts, killLadderNvimTier_attempts, killLadderTier_attempts,
      killLadderTier_attempts]
    simp [List.append_assoc]
  · intro p hp
    rw [List.mem_filter] at hp
    have h := of_decide_eq_true hp.2
    unfold ProcessInfo.memory_mb at h
    omega
  · intro p _ hle
    rw [List.mem_filter]
    rintro ⟨-, hdec⟩
    have h := of_decide_eq_true hdec
    unfold ProcessInfo.memory_mb at h
    omega

/-- The scenario snapshots from the specification: three Brave processes,
one Telegram, one 2-GiB Nvim, one 200-MiB Nvim, two Firefox. -/
def scBrave : List ProcessInfo :=
  [⟨1, "brave", "/opt/brave.com/brave/brave", 10, 800000⟩,
   ⟨2, "brave", "/opt/brave.com/brave/brave", 11, 700000⟩,
   ⟨3, "brave", "/opt/brave.com/brave/brave", 12, 600000⟩]

/-- The scenario's Telegram snapshot. -/
def scTelegram : List ProcessInfo := [⟨4, "telegram", "telegram-desktop", 5, 400000⟩]

/-- The scenario's Nvim snapshot: 2 GiB (2097152 kB) and 200 MiB (204800 kB). -/
def scNvim : List ProcessInfo :=
  [⟨5, "nvim", "/usr/bin/nvim", 1, 2097152⟩, ⟨6, "nvim", "/usr/bin/nvim", 1, 204800⟩]

/-- The scenario's Firefox snapshot. -/
def scFirefox : List ProcessInfo :=
  [⟨7, "firefox", "/usr/lib/firefox/firefox", 20, 900000⟩,
   ⟨8, "firefox", "/usr/lib/firefox/firefox", 21, 850000⟩]

/-- Witness for C5: on the specification's scenario the kill order is
Brave 1,2,3, Telegram 4, the 2-GiB Nvim 5, Firefox 7,8, and the 200-MiB
Nvim (pid 6) is not in the Nvim kill tier. -/
theorem c5_kill_ladder_witness :
    (kill_non_critical_processes (fun _ => true) scBrave scTelegram scNvim scFirefox).attempts =
      [1, 2, 3, 4, 5, 7, 8] ∧
    ⟨6, "nvim", "/usr/bin/nvim", 1, 204800⟩ ∉
      scNvim.filter (fun p => decide (1024 < p.memory_mb)) := by
  constructor
  · rw [(c5_kill_ladder (fun _ => true) scBrave scTelegram scNvim scFirefox).1]
    decide
  · exact (c5_kill_ladder (fun _ => true) scBrave scTelegram scNvim scFirefox).2.2
      ⟨6, "nvim", "/usr/bin/nvim", 1, 204800⟩ (by decide) (by decide)

/-! ## Service controller (freezr-core/src/systemd.rs)

Wall-clock reads (`current_timestamp`) are passed in as arguments: `now`
for the read inside the interval guard and `stampNow` for the read that
stamps `last_restart_time` after both D-Bus calls succeeded (the source
calls `current_timestamp()` twice).  The outcomes of the two D-Bus method
calls are success oracles, and the calls actually issued are returned as a
trace. -/

/-- systemd.rs `SystemdService` fields. -/
structure SystemdServiceState where
  service_name : String
  last_restart_time : Nat
  min_restart_interval : Nat
deriving Repr, DecidableEq

/-- systemd.rs `SystemdService::can_restart` (lines 30-41): a first-ever
restart (`last_restart_time == 0`) is always allowed; otherwise the
elapsed time must reach the minimum interval. -/
def can_restart (st : SystemdServiceState) (now : Nat) : Bool :=
  if st.last_restart_time = 0 then true
  else decide (st.min_restart_interval ≤ now - st.last_restart_time)

/-- A D-Bus method call performed by `restart_with_reload`. -/
inductive DBusStep where
  | reload
  | restartUnit (mode : String)
deriving Repr, DecidableEq

/-- Outcome of `restart_with_reload`. -/
inductive RestartOutcome where
  | ok
  | intervalRefused
  | reloadFailed
  | restartUnitFailed
deriving Repr, DecidableEq

/-- Result of one `restart_with_reload` call: outcome, the service state
after the call, and the D-Bus calls issued. -/
structure RestartResult where
  outcome : RestartOutcome
  state : SystemdServiceState
  steps : List DBusStep
deriving Repr, DecidableEq

/-- systemd.rs `SystemdService::restart_with_reload` (lines 140-161):
check the interval guard, invoke `Reload`, invoke `RestartUnit` with mode
"replace", then stamp `last_restart_time`; any failure returns early,
leaving the state untouched. -/
def restart_with_reload (st : SystemdServiceState) (now stampNow : Nat)
    (reloadOk restartOk : Bool) : RestartResult :=
  if !(can_restart st now) then ⟨.intervalRefused, st, []⟩
  else if !reloadOk then ⟨.reloadFailed, st, [.reload]⟩
  else if !restartOk then ⟨.restartUnitFailed, st, [.reload, .restartUnit "replace"]⟩
  else ⟨.ok, { st with last_restart_time := stampNow }, [.reload, .restartUnit "replace"]⟩

/-- Claim C6: `restart_with_reload` runs guard, Reload, RestartUnit with
mode "replace" in that order and stamps only after full success; a call is
refused exactly when `last_restart ≠ 0` and `now − last_restart <
min_interval` (a first restart is always admitted past the guard); any
failure leaves `last_restart` unchanged; Reload failure means RestartUnit
is never attempted; and a second call less than `min_interval` after a
successful one is refused with no D-Bus calls at all. -/
theorem c6_restart_with_reload :
    (∀ (st : SystemdServiceState) (now stampNow : Nat) (reloadOk restartOk : Bool),
      st.last_restart_time ≠ 0 →
      now - st.last_restart_time < st.min_restart_interval →
      restart_with_reload st now stampNow reloadOk restartOk =
        ⟨.intervalRefused, st, []⟩) ∧
    (∀ (st : SystemdServiceState) (now stampNow : Nat) (reloadOk restartOk : Bool),
      st.last_restart_time = 0 →
      (restart_with_reload st now stampNow reloadOk restartOk).outcome ≠ .intervalRefused) ∧
    (∀ (st : SystemdServiceState) (now stampNow : Nat) (reloadOk restartOk : Bool),
      (restart_with_reload st now stampNow reloadOk restartOk).outcome = .ok →
      (restart_with_reload st now stampNow reloadOk restartOk).steps =
        [.reload, .restartUnit "replace"] ∧
      (restart_with_reload st now stampNow reloadOk restartOk).state =
        { st with last_restart_time := stampNow }) ∧
    (∀ (st : SystemdServiceState) (now stampNow : Nat) (reloadOk restartOk : Bool),
      (restart_with_reload st now stampNow reloadOk restartOk).outcome ≠ .ok →
      (restart_with_reload st now stampNow reloadOk restartOk).state = st) ∧
    (∀ (st : SystemdServiceState) (now stampNow : Nat) (restartOk : Bool),
      can_restart st now = true →
      restart_with_reload st now stampNow false restartOk =
        ⟨.reloadFailed, st, [.reload]⟩) ∧
    (∀ (st : SystemdServiceState) (now1 stamp1 now2 stamp2 : Nat)
        (reloadOk2 restartOk2 : Bool),
      0 < now1 → now1 ≤ stamp1 → stamp1 ≤ now2 →
      now2 - now1 < st.min_restart_interval →
      (restart_with_reload st now1 stamp1 true true).outcome = .ok →
      restart_with_reload (restart_with_reload st now1 stamp1 true true).state
          now2 stamp2 reloadOk2 restartOk2 =
        ⟨.intervalRefused, (restart_with_reload st now1 stamp1 true true).state, []⟩) := by
  have hguard : ∀ (st : SystemdServiceState) (now : Nat),
      st.last_restart_time ≠ 0 → now - st.last_restart_time < st.min_restart_interval →
      can_restart st now = false := by
    intro st now hne hlt
    unfold can_restart
    rw [if_neg hne]
    simpa using Nat.not_le.mpr hlt
  refine ⟨?_, ?_, ?_, ?_, ?_, ?_⟩
  · intro st now stampNow reloadOk restartOk hne hlt
    unfold restart_with_reload
    rw [hguard st now hne hlt]
    rfl
  · intro st now stampNow reloadOk restartOk hzero
    unfold restart_with_reload
    have : can_restart st now = true := by unfold can_restart; rw [if_pos hzero]
    rw [this]
    cases reloadOk <;> cases restartOk <;> simp
  · intro st now stampNow reloadOk restartOk hok
    unfold restart_with_reload at hok ⊢
    rcases Bool.dichotomy (can_restart st now) with hc | hc
    · rw [hc] at hok; simp at hok
    · rw [hc] at hok ⊢
      cases reloadOk <;> cases restartOk <;> simp_all
  · intro st now stampNow reloadOk restartOk hne
    unfold restart_with_reload at hne ⊢
    rcases Bool.dichotomy (can_restart st now) with hc | hc
    · rw [hc]; rfl
    · rw [hc] at hne ⊢
      cases reloadOk <;> cases restartOk <;> simp_all
  · intro st now stampNow restartOk hc
    unfold restart_with_reload
    rw [hc]
    rfl
  · intro st now1 stamp1 now2 stamp2 reloadOk2 restartOk2 hpos h1 h2 hlt hok
    have hstate : (restart_with_reload st now1 stamp1 true true).state =
        { st with last_restart_time := stamp1 } := by
      unfold restart_with_reload at hok ⊢
      rcases Bool.dichotomy (can_restart st now1) with hc | hc
      · rw [hc] at hok; simp at hok
      · rw [hc]; rfl
    rw [hstate]
    unfold restart_with_reload
    rw [hguard { st with last_restart_time := stamp1 } now2 (by simp; omega) (by simp; omega)]
    rfl

/-- Witness for C6: a service last restarted at time 1000 with minimum
interval 100 refuses a restart at time 1050 without touching its state. -/
theorem c6_restart_with_reload_witness :
    restart_with_reload ⟨"kesl", 1000, 100⟩ 1050 1051 true true =
      ⟨.intervalRefused, ⟨"kesl", 1000, 100⟩, []⟩ :=
  c6_restart_with_reload.1 ⟨"kesl", 1000, 100⟩ 1050 1051 true true
    (by decide) (by decide)

/-! ## KESL pass and service restart (monitor.rs `check_kesl`,
`restart_kesl_service`, and types.rs `MonitorStats`) -/

/-- types.rs `MonitorStats`. -/
structure MonitorStats where
  total_checks : Nat
  total_violations : Nat
  total_kills : Nat
  total_restarts : Nat
  cpu_violations : Nat
  memory_violations : Nat
  last_check_timestamp : Nat
deriving Repr, DecidableEq

/-- types.rs `MonitorStats::increment_cpu_violation`. -/
def MonitorStats.increment_cpu_violation (s : MonitorStats) : MonitorStats :=
  { s with cpu_violations := s.cpu_violations + 1,
           total_violations := s.total_violations + 1 }

/-- types.rs `MonitorStats::increment_memory_violation`. -/
def MonitorStats.increment_memory_violation (s : MonitorStats) : MonitorStats :=
  { s with memory_violations := s.memory_violations + 1,
           total_violations := s.total_violations + 1 }

/-- types.rs `MonitorStats::record_restart`: bump `total_restarts` and
reset the per-window violation counters. -/
def MonitorStats.record_restart (s : MonitorStats) : MonitorStats :=
  { s with total_restarts := s.total_restarts + 1,
           cpu_violations := 0, memory_violations := 0 }

/-- The KESL thresholds of `ResourceMonitor` (monitor.rs fields
`cpu_threshold`, `memory_threshold_mb`, `max_violations`). -/
structure KeslMonitorConfig where
  cpu_threshold : ℚ
  memory_threshold_mb : Nat
  max_violations : Nat
deriving Repr, DecidableEq

/-- The mutable state the KESL pass touches: the monitor's own violation
counters, the aggregate stats, and the systemd service handle. -/
structure KeslMonitorState where
  cpu_violations : Nat
  memory_violations : Nat
  stats : MonitorStats
  kesl_service : SystemdServiceState
deriving Repr, DecidableEq

/-- The threshold bookkeeping of `check_kesl` (monitor.rs lines 447-485):
CPU above threshold increments the CPU counter (and the stats tally),
otherwise the counter resets; likewise for memory against `memory_mb`. -/
def kesl_update (cfg : KeslMonitorConfig) (p : ProcessInfo)
    (st : KeslMonitorState) : KeslMonitorState :=
  let st1 :=
    if cfg.cpu_threshold < p.cpu_percent then
      { st with cpu_violations := st.cpu_violations + 1,
                stats := st.stats.increment_cpu_violation }
    else { st with cpu_violations := 0 }
  if cfg.memory_threshold_mb < p.memory_mb then
    { st1 with memory_violations := st1.memory_violations + 1,
               stats := st1.stats.increment_memory_violation }
  else { st1 with memory_violations := 0 }

/-- Outcome of the KESL pass (`Ok(())` versus a propagated error). -/
inductive KeslCheckOutcome where
  | ok
  | error
deriving Repr, DecidableEq

/-- monitor.rs `ResourceMonitor::restart_kesl_service` (lines 1049-1067):
bail out with an error when the unit's ActiveState is not "active"
(before any Reload/RestartUnit); otherwise run `restart_with_reload`, and
only on its success reset both violation counters and record the restart. -/
def restart_kesl_service (st : KeslMonitorState) (activeState : String)
    (now stampNow : Nat) (reloadOk restartOk : Bool) :
    KeslCheckOutcome × KeslMonitorState × List DBusStep :=
  if activeState ≠ "active" then (.error, st, [])
  else
    let r := restart_with_reload st.kesl_service now stampNow reloadOk restartOk
    if r.outcome = .ok then
      (.ok, { st with kesl_service := r.state,
                      cpu_violations := 0, memory_violations := 0,
                      stats := st.stats.record_restart }, r.steps)
    else (.error, { st with kesl_service := r.state }, r.steps)

/-- monitor.rs `ResourceMonitor::check_kesl` (lines 432-498): no snapshot
is a warning and an early Ok; otherwise update both violation counters and,
when either reaches `max_violations`, attempt the service restart. -/
def check_kesl (cfg : KeslMonitorConfig) (snap : Option ProcessInfo)
    (st : KeslMonitorState) (activeState : String) (now stampNow : Nat)
    (reloadOk restartOk : Bool) :
    KeslCheckOutcome × KeslMonitorState × List DBusStep :=
  match snap with
  | none => (.ok, st, [])
  | some p =>
    let st1 := kesl_update cfg p st
    if cfg.max_violations ≤ st1.cpu_violations ∨
       cfg.max_violations ≤ st1.memory_violations then
      restart_kesl_service st1 activeState now stampNow reloadOk restartOk
    else (.ok, st1, [])

/-- Claim C10: when the violation threshold is reached on a tick whose
ActiveState reading is not "active", the KESL pass returns an error with no
Reload or RestartUnit call, the final state is exactly the post-update
state (the restart step neither resets nor increments any counter), and
`total_restarts` is unchanged from the start of the tick. -/
theorem c10_restart_requires_active_unit
    (cfg : KeslMonitorConfig) (p : ProcessInfo) (st : KeslMonitorState)
    (activeState : String) (now stampNow : Nat) (reloadOk restartOk : Bool)
    (hthr : cfg.max_violations ≤ (kesl_update cfg p st).cpu_violations ∨
            cfg.max_violations ≤ (kesl_update cfg p st).memory_violations)
    (hact : activeState ≠ "active") :
    check_kesl cfg (some p) st activeState now stampNow reloadOk restartOk =
      (.error, kesl_update cfg p st, []) ∧
    (kesl_update cfg p st).stats.total_restarts = st.stats.total_restarts ∧
    (kesl_update cfg p st).kesl_service = st.kesl_service := by
  refine ⟨?_, ?_, ?_⟩
  · show (if cfg.max_violations ≤ (kesl_update cfg p st).cpu_violations ∨
        cfg.max_violations ≤ (kesl_update cfg p st).memory_violations then
          restart_kesl_service (kesl_update cfg p st) activeState now stampNow reloadOk restartOk
        else (.ok, kesl_update cfg p st, [])) =
      (.error, kesl_update cfg p st, [])
    rw [if_pos hthr]
    unfold restart_kesl_service
    rw [if_pos hact]
  · unfold kesl_update MonitorStats.increment_cpu_violation
      MonitorStats.increment_memory_violation
    split_ifs <;> rfl
  · unfold kesl_update
    split_ifs <;> rfl

/-- A KESL snapshot at 45% CPU and 500 MB RSS. -/
def keslProcHot : ProcessInfo :=
  ⟨4242, "kesl", "/opt/kaspersky/kesl/libexec/kesl", 45, 512000⟩

/-- A monitor state two CPU violations into the window, service never
restarted. -/
def c10State : KeslMonitorState :=
  ⟨2, 0, ⟨10, 2, 0, 0, 2, 0, 0⟩, ⟨"kesl", 0, 100⟩⟩

/-- Witness for C10: with thresholds (30%, 600 MB, 3 violations), a third
hot tick whose ActiveState reads "inactive" errors out with no D-Bus calls
and leaves the restart tally at zero. -/
theorem c10_restart_requires_active_unit_witness :
    check_kesl ⟨30, 600, 3⟩ (some keslProcHot) c10State "inactive" 5000 5003 true true =
      (.error, kesl_update ⟨30, 600, 3⟩ keslProcHot c10State, []) ∧
    (kesl_update ⟨30, 600, 3⟩ keslProcHot c10State).stats.total_restarts =
      c10State.stats.total_restarts ∧
    (kesl_update ⟨30, 600, 3⟩ keslProcHot c10State).kesl_service =
      c10State.kesl_service :=
  c10_restart_requires_active_unit ⟨30, 600, 3⟩ keslProcHot c10State
    "inactive" 5000 5003 true true (by decide) (by decide)

/-! ## Cgroup manager: dynamic-group cap (freezr-core/src/cgroups/types.rs) -/

/-- cgroups/types.rs `CgroupType`. -/
inductive CgroupType where
  | static
  | dynamic
deriving Repr, DecidableEq

/-- An entry of the manager's `cgroups` map (name and kind; the path and
limits play no role in the cap logic). -/
structure CgroupEntry where
  name : String
  cgroup_type : CgroupType
deriving Repr, DecidableEq

/-- The `CgroupManager` state relevant to creation: the owned `cgroups`
map (modelled as its entry list) and
`dynamic_settings.max_dynamic_cgroups`. -/
structure CgroupManagerState where
  cgroups : List CgroupEntry
  max_dynamic_cgroups : Nat
deriving Repr, DecidableEq

/-- `self.cgroups.contains_key(name)`. -/
def CgroupManagerState.contains_key (s : CgroupManagerState) (name : String) : Bool :=
  s.cgroups.any (fun c => decide (c.name = name))

/-- cgroups/types.rs `CgroupManager::count_dynamic_cgroups` (lines
621-626): the number of owned entries whose kind is Dynamic. -/
def count_dynamic_cgroups (s : CgroupManagerState) : Nat :=
  (s.cgroups.filter (fun c => decide (c.cgroup_type = CgroupType.dynamic))).length

/-- cgroups/error.rs variants hit by `create_cgroup`. -/
inductive CgroupError where
  | alreadyExists (name : String)
  | maxCgroupsReached (max : Nat)
  | io
deriving Repr, DecidableEq

/-- cgroups/types.rs `CgroupManager::create_cgroup` (lines 414-442):
reject a duplicate name, reject when the dynamic count has reached
`max_dynamic_cgroups`, then create the directory (`mkdirOk` oracle) and
record the new Dynamic entry. -/
def create_cgroup (s : CgroupManagerState) (name : String) (mkdirOk : Bool) :
    Except CgroupError CgroupManagerState :=
  if s.contains_key name then .error (.alreadyExists name)
  else if s.max_dynamic_cgroups ≤ count_dynamic_cgroups s then
    .error (.maxCgroupsReached s.max_dynamic_cgroups)
  else if !mkdirOk then .error .io
  else .ok { s with cgroups := s.cgroups ++ [⟨name, .dynamic⟩] }

/-- Claim C8: creation of a fresh dynamic cgroup at a dynamic count at or
above the cap fails with the capacity error (and no creation at such a
count can succeed); at count = max − 1 a fresh name with a creatable
directory succeeds and brings the count to the cap; static entries never
count toward the cap; and any successful creation preserves
`count ≤ max`. -/
theorem c8_dynamic_cgroup_cap (s : CgroupManagerState) (name : String) (mkdirOk : Bool) :
    (s.contains_key name = false →
      s.max_dynamic_cgroups ≤ count_dynamic_cgroups s →
      create_cgroup s name mkdirOk = .error (.maxCgroupsReached s.max_dynamic_cgroups)) ∧
    (s.max_dynamic_cgroups ≤ count_dynamic_cgroups s →
      ∀ s', create_cgroup s name mkdirOk ≠ .ok s') ∧
    (s.contains_key name = false → mkdirOk = true →
      count_dynamic_cgroups s + 1 = s.max_dynamic_cgroups →
      create_cgroup s name mkdirOk =
        .ok { s with cgroups := s.cgroups ++ [⟨name, .dynamic⟩] } ∧
      count_dynamic_cgroups { s with cgroups := s.cgroups ++ [⟨name, .dynamic⟩] } =
        s.max_dynamic_cgroups) ∧
    (∀ staticName : String,
      count_dynamic_cgroups { s with cgroups := s.cgroups ++ [⟨staticName, .static⟩] } =
        count_dynamic_cgroups s) ∧
    (count_dynamic_cgroups s ≤ s.max_dynamic_cgroups →
      ∀ s', create_cgroup s name mkdirOk = .ok s' →
      count_dynamic_cgroups s' ≤ s'.max_dynamic_cgroups) := by
  have hcount_app : ∀ (l : List CgroupEntry) (e : CgroupEntry) (m : Nat),
      count_dynamic_cgroups ⟨l ++ [e], m⟩ =
        count_dynamic_cgroups ⟨l, m⟩ +
          (if e.cgroup_type = CgroupType.dynamic then 1 else 0) := by
    intro l e m
    unfold count_dynamic_cgroups
    rw [List.filter_append, List.length_append]
    by_cases he : e.cgroup_type = CgroupType.dynamic
    · simp [he]
    · simp [he]
  refine ⟨?_, ?_, ?_, ?_, ?_⟩
  · intro hfresh hcap
    unfold create_cgroup
    rw [hfresh]
    rw [if_neg (by simp), if_pos hcap]
  · intro hcap s'
    unfold create_cgroup
    rcases Bool.dichotomy (s.contains_key name) with hk | hk <;> rw [hk]
    · rw [if_neg (by simp), if_pos hcap]
      simp
    · simp
  · intro hfresh hmk hcnt
    have hlt : ¬ s.max_dynamic_cgroups ≤ count_dynamic_cgroups s := by omega
    constructor
    · unfold create_cgroup
      rw [hfresh, hmk]
      rw [if_neg (by simp), if_neg hlt, if_neg (by simp)]
    · rcases s with ⟨l, m⟩
      rw [hcount_app]
      simpa using hcnt
  · intro staticName
    rcases s with ⟨l, m⟩
    rw [hcount_app]
    simp
  · intro hle s' hok
    unfold create_cgroup at hok
    rcases Bool.dichotomy (s.contains_key name) with hk | hk <;> rw [hk] at hok
    · by_cases hcap : s.max_dynamic_cgroups ≤ count_dynamic_cgroups s
      · rw [if_neg (by simp), if_pos hcap] at hok
        exact absurd hok (by simp)
      · rw [if_neg (by simp), if_neg hcap] at hok
        rcases Bool.dichotomy mkdirOk with hm | hm <;> rw [hm] at hok
        · exact absurd hok (by simp)
        · simp only [Bool.not_true] at hok
          rw [if_neg (by simp)] at hok
          have : s' = { s with cgroups := s.cgroups ++ [⟨name, .dynamic⟩] } := by
            cases hok; rfl
          subst this
          rcases s with ⟨l, m⟩
          rw [hcount_app]
          simp at hcap ⊢
          omega
    · exact absurd hok (by simp)

/-- A manager owning the static group "kesl" and the dynamic group "a",
with a dynamic cap of 2 (the specification's lifecycle scenario). -/
def cgScenario : CgroupManagerState :=
  ⟨[⟨"kesl", .static⟩, ⟨"a", .dynamic⟩], 2⟩

/-- The scenario manager after "b" was also created. -/
def cgScenarioFull : CgroupManagerState :=
  ⟨[⟨"kesl", .static⟩, ⟨"a", .dynamic⟩, ⟨"b", .dynamic⟩], 2⟩

/-- Witness for C8: with cap 2 and one dynamic group, creating "b"
succeeds and fills the cap; at the cap, creating "c" fails with the
capacity error even though the static group "kesl" is also owned. -/
theorem c8_dynamic_cgroup_cap_witness :
    create_cgroup cgScenario "b" true = .ok cgScenarioFull ∧
    create_cgroup cgScenarioFull "c" true = .error (.maxCgroupsReached 2) := by
  constructor
  · exact ((c8_dynamic_cgroup_cap cgScenario "b" true).2.2.1
      (by decide) rfl (by decide)).1
  · exact (c8_dynamic_cgroup_cap cgScenarioFull "c" true).1 (by decide) (by decide)

/-! ## CPU-quota conversion (freezr-core/src/cgroups/utils.rs)

`convert_percent_to_quota` computes `((percent / 100.0) * 100000.0) as u64`
in f64 arithmetic, and `convert_quota_to_percent` computes
`(quota as f64 / period as f64) * 100.0`.  Claim C9 is about the rounding
behaviour of exactly these expressions, so IEEE-754 binary64
round-to-nearest-even is modelled exactly: a positive rational is rounded
to the nearest representable double (normal range), and every exact
intermediate value is carried as a numerator/denominator pair of naturals
so that the whole computation stays kernel-computable.  The `as u64` cast
truncates toward zero. -/

/-- Round the non-negative rational a/b (b ≠ 0) to the nearest natural,
ties to even. -/
def rhePair (a b : ℕ) : ℕ :=
  let n := a / b
  let r := a % b
  if 2 * r < b then n
  else if b < 2 * r then n + 1
  else if n % 2 = 0 then n else n + 1

/-- Decide a/b < 2^k for naturals a, b and an integer exponent k. -/
def ratLtPow2 (a b : ℕ) (k : ℤ) : Bool :=
  if 0 ≤ k then decide (a < b * 2 ^ k.toNat)
  else decide (a * 2 ^ (-k).toNat < b)

/-- Scan upward from exponent e for the first e with a/b < 2^(e+1); for
a/b ≥ 2^e this finds the binary exponent of a/b (fuel bounds the scan). -/
def findExpAux (a b : ℕ) : ℕ → ℤ → ℤ
  | 0, e => e
  | fuel + 1, e => if ratLtPow2 a b (e + 1) then e else findExpAux a b fuel (e + 1)

/-- Round the positive rational a/b to the nearest IEEE-754 binary64 value
(round to nearest, ties to even; normal range, adequate for every value
arising in the quota conversion), returned as an exact
numerator/denominator pair. -/
def floatRoundPair (a b : ℕ) : ℕ × ℕ :=
  if a = 0 ∨ b = 0 then (0, 1)
  else
    let e := findExpAux a b 128 (-60)
    let s := 52 - e
    if 0 ≤ s then (rhePair (a * 2 ^ s.toNat) b, 2 ^ s.toNat)
    else (rhePair a (b * 2 ^ (-s).toNat) * 2 ^ (-s).toNat, 1)

/-- cgroups/utils.rs `convert_percent_to_quota` (lines 17-22) for an
integer percentage (integers up to 1000 are exactly representable in f64):
`quota_us = ((percent / 100.0) * PERIOD_US as f64) as u64`, i.e. the
division rounds, the multiplication rounds, and the cast truncates toward
zero; the period is the constant 100000. -/
def convert_percent_to_quota (p : ℕ) : ℕ × ℕ :=
  let d := floatRoundPair p 100
  let m := floatRoundPair (d.1 * 100000) d.2
  (m.1 / m.2, 100000)

/-- cgroups/utils.rs `convert_quota_to_percent` (lines 25-30):
`(quota as f64 / period as f64) * 100.0`, returned as the exact rational
value of the resulting f64. -/
def convert_quota_to_percent (quota period : ℕ) : ℕ × ℕ :=
  if period = 0 then (0, 1)
  else
    let d := floatRoundPair quota period
    floatRoundPair (d.1 * 100) d.2

/-- Claim C9 fails on the code at p = 29, and the code diverges from its
own documented formula there: the exact value of (29/100)·100000 is 29000,
so the spec's encoding round(p/100·100000) gives 29000, but the f64
computation yields 28999.999999999996…, which the `as u64` cast truncates
to 28999; converting 28999 back yields the double closest to 28.999
(8162492849632314 / 2^48), which differs from 29 by about 1e-3, far above
the 1e-9 tolerance. -/
theorem c9_cpu_quota_roundtrip_bug :
    convert_percent_to_quota 29 = (28999, 100000) ∧
    (29 : ℚ) / 100 * 100000 = 29000 ∧
    convert_quota_to_percent 28999 100000 = (8162492849632314, 281474976710656) ∧
    ¬ (|(8162492849632314 : ℚ) / 281474976710656 - 29| ≤ 1 / 1000000000) := by
  refine ⟨by decide, by norm_num, by decide, ?_⟩
  rw [not_le,
    abs_of_neg (by norm_num : (8162492849632314 : ℚ) / 281474976710656 - 29 < 0)]
  norm_num

end Freezr
